import Mathlib

/-!
Verification of the two puzzle solvers in this repository:

* `day_3/src/main.rs` — wire paths on an integer grid: parsing (`Vec2d::from`),
  rasterization (`get_points`), intersection of the two wires, the minimum
  Manhattan distance (part 1) and the minimum combined step count (part 2).
* `day_4/src/main.rs` — password predicates `is_valid_part_one` /
  `is_valid_part_two` and the two counts over the fixed range 138241..=674034.

Rust `i32` values are modelled as `Int` (no arithmetic in these programs comes
near the `i32` bounds except the magnitude parse, which checks the bound
explicitly, as `str::parse::<i32>` does).  A `panic!`/`unwrap` failure is
modelled by `Option`: `none` is an aborted computation, and combinators
propagate it exactly as a Rust panic unwinds.  Loops are modelled by
structural recursion on an explicit fuel argument; every wrapper passes a fuel
that provably exceeds the number of iterations the Rust loop performs, so the
fuel never runs out on the modelled domain.
-/

/-! ## day_4: password validators -/

/-- The `while password > 0` loop of `is_valid_part_two` (day_4, lines 55-69).
State: `password`, the `valid` flag, `repeat_count` and `previous`.  The loop
divides `password` by 10 each iteration, so it runs at most `fuel` iterations
whenever `password < 10 ^ fuel`; the fuel-exhausted branch returns the same
value as the loop exit and is never reached for the fuels used below.  After
the loop the Rust function returns `valid || repeat_count == 2`. -/
def partTwoLoop : Nat → Nat → Bool → Nat → Nat → Bool
  | 0, _, valid, repeat_count, _ => valid || repeat_count == 2
  | fuel + 1, password, valid, repeat_count, previous =>
    if password > 0 then
      let current := password % 10
      if current > previous then
        false
      else if current == previous then
        partTwoLoop fuel (password / 10) valid (repeat_count + 1) current
      else
        partTwoLoop fuel (password / 10) (valid || repeat_count == 2) 1 current
    else
      valid || repeat_count == 2

/-- `is_valid_part_two` (day_4, lines 49-72).  The Rust function first sets
`previous = password % 10` and `password /= 10`.  For `password <= 0` the loop
body never runs (truncated division keeps a non-positive value non-positive)
and the function returns `false || (1 == 2) = false`. -/
def is_valid_part_two (password : Int) : Bool :=
  if 0 < password then
    partTwoLoop password.toNat (password.toNat / 10) false 1 (password.toNat % 10)
  else
    false

/-- The `while password > 0` loop of `is_valid_part_one` (day_4, lines 80-90).
Returns `valid` once `password` reaches 0; fuel as in `partTwoLoop`. -/
def partOneLoop : Nat → Nat → Bool → Nat → Bool
  | 0, _, valid, _ => valid
  | fuel + 1, password, valid, previous =>
    if password > 0 then
      let current := password % 10
      if current > previous then
        false
      else
        partOneLoop fuel (password / 10) (valid || current == previous) current
    else
      valid

/-- `is_valid_part_one` (day_4, lines 75-93), with the same entry convention
as `is_valid_part_two`: for `password <= 0` the loop never runs and the
function returns the initial `valid = false`. -/
def is_valid_part_one (password : Int) : Bool :=
  if 0 < password then
    partOneLoop password.toNat (password.toNat / 10) false (password.toNat % 10)
  else
    false

/-- `main` of day_4 (lines 95-104): the two counts printed for the fixed
inclusive range `138_241..=674_034`, part one first.  `List.range' lo n`
lists `lo, lo+1, ..., lo+n-1`, so `List.range' lo (hi + 1 - lo)` is the
inclusive Rust range `lo..=hi`. -/
def day4_main : Nat × Nat :=
  (((List.range' 138241 (674034 + 1 - 138241)).filter
      fun p => is_valid_part_one (Int.ofNat p)).length,
   ((List.range' 138241 (674034 + 1 - 138241)).filter
      fun p => is_valid_part_two (Int.ofNat p)).length)

/-! ### Specification-level digit predicates

These definitions restate the two validity criteria on the digit list
`Nat.digits 10 n` (least significant digit first); the theorems below prove
that the Rust loops compute exactly these predicates. -/

/-- Some two adjacent entries of the list are equal. -/
def hasAdjacentEqual : List Nat → Bool
  | a :: b :: l => a == b || hasAdjacentEqual (b :: l)
  | _ => false

/-- Run-length scan: `rlGo a c l` is the list of maximal-run lengths of
`a :: l`, given that the run currently ending at `a` already has length `c`. -/
def rlGo (a : Nat) (c : Nat) : List Nat → List Nat
  | [] => [c]
  | b :: l => if b = a then rlGo a (c + 1) l else c :: rlGo b 1 l

/-- Lengths of the maximal runs of equal adjacent elements. -/
def runLengths : List Nat → List Nat
  | [] => []
  | a :: l => rlGo a 1 l

/-! ### Evaluation-friendly forms used to compute the day_4 counts

Every number in `138241..=674034` has exactly six decimal digits, so on that
range each validity predicate is equal (proved below) to a straight-line
function of the six digits.  The count over the range is computed by a
balanced binary tree of additions (`cntPow`) whose leaves handle 16
consecutive numbers, because the kernel cannot evaluate a 535794-step linear
recursion; `grandTotal` packs both counts into one number, part one scaled by
2^20. -/

/-- Straight-line equivalent of `is_valid_part_one` for six-digit numbers. -/
def predFast1 (n : Nat) : Bool :=
  let d0 := n % 10
  let d1 := n / 10 % 10
  let d2 := n / 100 % 10
  let d3 := n / 1000 % 10
  let d4 := n / 10000 % 10
  let d5 := n / 100000
  (d1.ble d0 && (d2.ble d1 && (d3.ble d2 && (d4.ble d3 && d5.ble d4)))) &&
    (d1.beq d0 || (d2.beq d1 || (d3.beq d2 || (d4.beq d3 || d5.beq d4))))

/-- Straight-line equivalent of `is_valid_part_two` for six-digit numbers:
non-decreasing digits and some maximal run of equal digits of length
exactly 2. -/
def predFast2 (n : Nat) : Bool :=
  let d0 := n % 10
  let d1 := n / 10 % 10
  let d2 := n / 100 % 10
  let d3 := n / 1000 % 10
  let d4 := n / 10000 % 10
  let d5 := n / 100000
  (d1.ble d0 && (d2.ble d1 && (d3.ble d2 && (d4.ble d3 && d5.ble d4)))) &&
    ((d0.beq d1 && !d1.beq d2) ||
     ((d1.beq d2 && (!d0.beq d1 && !d2.beq d3)) ||
      ((d2.beq d3 && (!d1.beq d2 && !d3.beq d4)) ||
       ((d3.beq d4 && (!d2.beq d3 && !d4.beq d5)) ||
        (d4.beq d5 && !d3.beq d4)))))

/-- Both per-element indicators packed into one number: part one in the
2^20 slot, part two in the units. -/
def elemCount (n : Nat) : Nat :=
  cond (predFast1 n) 1048576 0 + cond (predFast2 n) 1 0

/-- Sum of `elemCount` over 16 consecutive numbers. -/
def leafRun (lo : Nat) : Nat :=
  elemCount lo + elemCount (lo + 1) + elemCount (lo + 2) + elemCount (lo + 3) +
    elemCount (lo + 4) + elemCount (lo + 5) + elemCount (lo + 6) + elemCount (lo + 7) +
    elemCount (lo + 8) + elemCount (lo + 9) + elemCount (lo + 10) + elemCount (lo + 11) +
    elemCount (lo + 12) + elemCount (lo + 13) + elemCount (lo + 14) + elemCount (lo + 15)

/-- Sum of `elemCount` over the `16 * 2 ^ k` numbers starting at `lo`,
as a balanced binary tree of additions. -/
def cntPow : Nat → Nat → Nat
  | 0, lo => leafRun lo
  | k + 1, lo => cntPow k lo + cntPow k (lo + 16 * 2 ^ k)

/-- Sum of `elemCount` over the two numbers `lo`, `lo + 1`. -/
def tailPair (lo : Nat) : Nat :=
  elemCount lo + elemCount (lo + 1)

/-- Antisymmetry instance needed by the library lemma about `List.min?`. -/
instance : Std.Antisymm ((· : Int) ≤ ·) := ⟨fun h1 h2 => le_antisymm h1 h2⟩

/-! ## day_3: crossed wires -/

/-- The 2D integer vector (day_3, lines 123-127), used both as a displacement
and as an absolute grid cell. -/
structure Vec2d where
  x : Int
  y : Int
deriving DecidableEq

instance : Add Vec2d where
  add a b := ⟨a.x + b.x, a.y + b.y⟩

/-- `Vec2d::manhattan_distance` (day_3, lines 130-132): `x.abs() + y.abs()`. -/
def Vec2d.manhattan_distance (self : Vec2d) : Int :=
  self.x.natAbs + self.y.natAbs

/-- Numeric value of a digit string, as accumulated by `str::parse`. -/
def digitVal (ds : List Char) : Nat :=
  ds.foldl (fun acc c => 10 * acc + (c.toNat - 48)) 0

/-- `captures[2].parse::<i32>()` on a digit string: the value, unless it
overflows `i32` (in which case `parse` errors and the `unwrap` panics). -/
def intFromDigits (ds : List Char) : Option Int :=
  if digitVal ds ≤ 2147483647 then some (Int.ofNat (digitVal ds)) else none

/-- The token pattern of the regex `^([UDLR])(\d+$)` (day_3, line 149): one
direction letter followed by one or more digits, nothing else. -/
def tokenMatches : List Char → Bool
  | [] => false
  | d :: rest =>
    (d = 'U' || d = 'D' || d = 'L' || d = 'R') && (!rest.isEmpty && rest.all Char.isDigit)

/-- `impl From<&str> for Vec2d` (day_3, lines 146-168).  `none` models the
panic of the `unwrap` on a failed regex match, of the `unwrap` on a failed
`parse::<i32>`, and of the unreachable `panic!("")` arm. -/
def Vec2d.from_str (s : List Char) : Option Vec2d :=
  match s with
  | [] => none
  | d :: rest =>
    if rest.isEmpty || !rest.all Char.isDigit then
      none
    else if !(d = 'U' || d = 'D' || d = 'L' || d = 'R') then
      none
    else
      match intFromDigits rest with
      | none => none
      | some magnitude =>
        if d = 'U' then some ⟨0, magnitude⟩
        else if d = 'D' then some ⟨0, -magnitude⟩
        else if d = 'L' then some ⟨-magnitude, 0⟩
        else some ⟨magnitude, 0⟩

/-- `str::split(',')` on a character list, matching Rust's semantics
(an empty input yields one empty token, separators delimit possibly empty
tokens). -/
def splitComma : List Char → List (List Char)
  | [] => [[]]
  | c :: rest =>
    if c = ',' then
      [] :: splitComma rest
    else
      match splitComma rest with
      | t :: ts => (c :: t) :: ts
      | [] => [[c]]

/-- `parse` (day_3, lines 170-176): every comma-separated token through
`Vec2d::from`; a panic on any token aborts the whole parse. -/
def parse (path : List Char) : Option (List Vec2d) :=
  (splitComma path).mapM Vec2d.from_str

/-- The direction computation of `get_points` (day_3, lines 182-191): a unit
vector picked by the sign of `x` first, then the sign of `y`. -/
def dirOf (vertex : Vec2d) : Vec2d :=
  if vertex.x > 0 then ⟨1, 0⟩
  else if vertex.x < 0 then ⟨-1, 0⟩
  else if vertex.y > 0 then ⟨0, 1⟩
  else if vertex.y < 0 then ⟨0, -1⟩
  else ⟨0, 0⟩

/-- `line_length` (day_3, line 193): `vertex.x.abs() + vertex.y.abs()`, the
iteration count of the inner `for` loop. -/
def lineLength (vertex : Vec2d) : Nat :=
  vertex.x.natAbs + vertex.y.natAbs

/-- The inner `for _ in 0..line_length` loop of `get_points` (lines 195-198):
steps `n` times from `pos` along `direction`, returning the cells pushed (in
order) and the final position. -/
def stepPoints (pos direction : Vec2d) : Nat → List Vec2d × Vec2d
  | 0 => ([], pos)
  | n + 1 =>
    let next := pos + direction
    let rest := stepPoints next direction n
    (next :: rest.1, rest.2)

/-- The outer loop of `get_points` over the vertices, threading `pos`. -/
def get_points_go (pos : Vec2d) : List Vec2d → List Vec2d
  | [] => []
  | vertex :: rest =>
    let seg := stepPoints pos (dirOf vertex) (lineLength vertex)
    seg.1 ++ get_points_go seg.2 rest

/-- `get_points` (day_3, lines 178-201): rasterize a displacement sequence
into every grid cell visited, starting from the origin. -/
def get_points (vertices : List Vec2d) : List Vec2d :=
  get_points_go ⟨0, 0⟩ vertices

/-- One stdin line through `parse` and `get_points`, as in `main`
(day_3, line 208). -/
def wirePoints (line : List Char) : Option (List Vec2d) :=
  (parse line).map get_points

/-- The intersection of the two wires' cell sets (day_3, lines 213-215).
`HashSet::intersection` is modelled as a duplicate-free list; all uses below
depend only on membership, which is: a cell of wire one that is also a cell
of wire two. -/
def intersections (w1 w2 : List Vec2d) : List Vec2d :=
  (w1.filter fun p => p ∈ w2).dedup

/-- The part-1 reduction (day_3, lines 217-224): minimum Manhattan distance
over the intersection cells.  `none` models the panic of `.min().unwrap()` on
an empty intersection set. -/
def part1Answer (w1 w2 : List Vec2d) : Option Int :=
  ((intersections w1 w2).map Vec2d.manhattan_distance).min?

/-- The 1-indexed step counts at which wire `w` visits cell `p`: the loop
`for (step, point) in (1..).zip(wire.iter())` (day_3, line 228) pushes
`step` for EVERY visit of `p`, not only the first. -/
def stepsFor (w : List Vec2d) (p : Vec2d) : List Nat :=
  ((List.range' 1 w.length).zip w).filterMap
    fun sp => if sp.2 = p then some sp.1 else none

/-- The part-2 reduction (day_3, lines 226-246): for each intersection cell,
the sum of all pushed step counts of both wires (wire one's entries first),
minimized over the intersection cells.  `none` models the panic of
`.min().unwrap()` on an empty steps map. -/
def part2Answer (w1 w2 : List Vec2d) : Option Nat :=
  ((intersections w1 w2).map fun p => (stepsFor w1 p ++ stepsFor w2 p).sum).min?

/-- Modelled from the spec: the closest-by-path-length metric described in
section 4.4, in which for each wire only the FIRST 1-indexed step count at
which it visits a cell is used ("first visit wins"), the two wires' first
visit counts are added per intersection cell, and the minimum is taken.  The
code in `main` (day_3, lines 226-246) does not implement this: it sums every
visit's step count. -/
def part2FirstVisit (w1 w2 : List Vec2d) : Option Nat :=
  ((intersections w1 w2).map
      fun p => (w1.findIdx (fun q => q = p) + 1) + (w2.findIdx (fun q => q = p) + 1)).min?

/-- `main` of day_3 (lines 203-247) on two rasterized wires: the pair of
printed answers, in print order.  `none` models an abnormal termination
(panic) before both lines are printed; the part-1 minimum is computed and
printed before the part-2 work starts. -/
def day3_run (w1 w2 : List Vec2d) : Option (Int × Nat) :=
  match part1Answer w1 w2 with
  | none => none
  | some d =>
    match part2Answer w1 w2 with
    | none => none
    | some s => some (d, s)

/-! ## Theorems -/

theorem hasAdjacentEqual_nil : hasAdjacentEqual [] = false := rfl

theorem hasAdjacentEqual_single (a : Nat) : hasAdjacentEqual [a] = false := rfl

theorem hasAdjacentEqual_cons2 (a b : Nat) (l : List Nat) :
    hasAdjacentEqual (a :: b :: l) = (a == b || hasAdjacentEqual (b :: l)) := rfl

/-- The part-one loop computes: the digit chain `previous :: digits` is
non-increasing (scanning least-significant first), and the `valid` flag ends
up true iff it started true or some two adjacent entries of the chain are
equal. -/
theorem partOneLoop_char :
    ∀ (fuel p : Nat) (v : Bool) (prev : Nat), p < 10 ^ fuel →
      partOneLoop fuel p v prev =
        (decide (List.Chain' (fun a b => b ≤ a) (prev :: Nat.digits 10 p)) &&
          (v || hasAdjacentEqual (prev :: Nat.digits 10 p))) := by
  intro fuel
  induction fuel with
  | zero =>
    intro p v prev hp
    interval_cases p
    simp [partOneLoop, hasAdjacentEqual_single]
  | succ fuel ih =>
    intro p v prev hp
    by_cases hp0 : 0 < p
    · rw [Nat.digits_def' (by norm_num : (1:Nat) < 10) hp0]
      have hdiv : p / 10 < 10 ^ fuel := by
        apply Nat.div_lt_of_lt_mul
        rw [Nat.mul_comm, ← pow_succ]
        exact hp
      by_cases hgt : p % 10 > prev
      · have h1 : ¬ (p % 10 ≤ prev) := by omega
        simp [partOneLoop, hp0, hgt, List.chain'_cons, h1]
      · rw [Bool.eq_iff_iff]
        simp only [partOneLoop, hp0, if_true, hgt, if_false, ih _ _ _ hdiv,
          hasAdjacentEqual_cons2, List.chain'_cons, Bool.decide_and,
          Bool.and_eq_true, Bool.or_eq_true, decide_eq_true_eq, beq_iff_eq]
        have h1 : p % 10 ≤ prev := by omega
        constructor
        · rintro ⟨hc, hrest⟩
          exact ⟨⟨h1, hc⟩, by tauto⟩
        · rintro ⟨⟨-, hc⟩, hrest⟩
          exact ⟨hc, by tauto⟩
    · have hp0' : p = 0 := by omega
      subst hp0'
      simp [partOneLoop, hasAdjacentEqual_single]


theorem eq_two_swap (n : Nat) : (2 = n) = (n = 2) := propext eq_comm

theorem partTwoLoop_zero (p : Nat) (v : Bool) (rc prev : Nat) :
    partTwoLoop 0 p v rc prev = (v || rc == 2) := rfl

theorem partTwoLoop_succ (fuel p : Nat) (v : Bool) (rc prev : Nat) :
    partTwoLoop (fuel + 1) p v rc prev =
      if p > 0 then
        if p % 10 > prev then false
        else if p % 10 == prev then partTwoLoop fuel (p / 10) v (rc + 1) (p % 10)
        else partTwoLoop fuel (p / 10) (v || rc == 2) 1 (p % 10)
      else v || rc == 2 := rfl

/-- The part-two loop computes: the digit chain is non-increasing, and the
result flag is true iff `valid` started true or the run-length list of the
chain (seeded with the incoming run `repeat_count` ending at `previous`)
contains a run of length exactly 2. -/
theorem partTwoLoop_char :
    ∀ (fuel p : Nat) (v : Bool) (rc prev : Nat), p < 10 ^ fuel →
      partTwoLoop fuel p v rc prev =
        (decide (List.Chain' (fun a b => b ≤ a) (prev :: Nat.digits 10 p)) &&
          (v || (rlGo prev rc (Nat.digits 10 p)).contains 2)) := by
  intro fuel
  induction fuel with
  | zero =>
    intro p v rc prev hp
    interval_cases p
    rw [partTwoLoop_zero, Bool.eq_iff_iff]
    cases v <;> simp [rlGo, eq_two_swap]
  | succ fuel ih =>
    intro p v rc prev hp
    by_cases hp0 : 0 < p
    · rw [Nat.digits_def' (by norm_num : (1:Nat) < 10) hp0]
      have hdiv : p / 10 < 10 ^ fuel := by
        apply Nat.div_lt_of_lt_mul
        rw [Nat.mul_comm, ← pow_succ]
        exact hp
      by_cases hgt : p % 10 > prev
      · have h1 : ¬ (p % 10 ≤ prev) := by omega
        rw [partTwoLoop_succ, if_pos hp0, if_pos hgt, Bool.eq_iff_iff]
        simp [List.chain'_cons, h1]
      · by_cases heq : p % 10 = prev
        · subst heq
          rw [partTwoLoop_succ, if_pos hp0, if_neg hgt,
            if_pos (by simp : ((p % 10 == p % 10) = true)), ih _ _ _ _ hdiv]
          have hrl : rlGo (p % 10) rc (p % 10 :: Nat.digits 10 (p / 10)) =
              rlGo (p % 10) (rc + 1) (Nat.digits 10 (p / 10)) := by
            simp [rlGo]
          rw [hrl, Bool.eq_iff_iff]
          simp [List.chain'_cons]
        · have h1 : p % 10 ≤ prev := by omega
          rw [partTwoLoop_succ, if_pos hp0, if_neg hgt,
            if_neg (by simp [heq] : ¬ ((p % 10 == prev) = true)), ih _ _ _ _ hdiv]
          have hrl : rlGo prev rc (p % 10 :: Nat.digits 10 (p / 10)) =
              rc :: rlGo (p % 10) 1 (Nat.digits 10 (p / 10)) := by
            simp [rlGo, heq]
          rw [hrl, Bool.eq_iff_iff]
          simp [List.chain'_cons, h1, eq_two_swap] <;> tauto
    · have hp0' : p = 0 := by omega
      subst hp0'
      rw [partTwoLoop_succ, if_neg (by omega), Bool.eq_iff_iff]
      cases v <;> simp [rlGo, eq_two_swap]

theorem runLengths_cons (a : Nat) (l : List Nat) : runLengths (a :: l) = rlGo a 1 l := rfl

/-- `is_valid_part_one` on a positive number: digits of `n` (least significant
first) never increase while scanning, and some two adjacent digits are
equal. -/
theorem is_valid_part_one_char (n : Int) (hn : 0 < n) :
    is_valid_part_one n =
      (decide (List.Chain' (fun a b => b ≤ a) (Nat.digits 10 n.toNat)) &&
        hasAdjacentEqual (Nat.digits 10 n.toNat)) := by
  have ht : 0 < n.toNat := by omega
  unfold is_valid_part_one
  rw [if_pos hn,
    partOneLoop_char _ _ _ _
      (lt_of_le_of_lt (Nat.div_le_self _ _) (Nat.lt_pow_self (by norm_num) _)),
    ← Nat.digits_def' (by norm_num : (1:Nat) < 10) ht]
  simp

/-- `is_valid_part_two` on a positive number: the digit chain never increases
while scanning, and the run-length list of the digits contains a run of
length exactly 2. -/
theorem is_valid_part_two_char (n : Int) (hn : 0 < n) :
    is_valid_part_two n =
      (decide (List.Chain' (fun a b => b ≤ a) (Nat.digits 10 n.toNat)) &&
        (runLengths (Nat.digits 10 n.toNat)).contains 2) := by
  have ht : 0 < n.toNat := by omega
  unfold is_valid_part_two
  rw [if_pos hn,
    partTwoLoop_char _ _ _ _ _
      (lt_of_le_of_lt (Nat.div_le_self _ _) (Nat.lt_pow_self (by norm_num) _)),
    ← runLengths_cons, ← Nat.digits_def' (by norm_num : (1:Nat) < 10) ht]
  simp

/-- A run of length exactly 2 in the run-length scan yields two adjacent
equal entries (unless it is the incoming seed count itself). -/
theorem rl_two_adj : ∀ (l : List Nat) (a c : Nat),
    (rlGo a c l).contains 2 = true → c = 2 ∨ hasAdjacentEqual (a :: l) = true := by
  intro l
  induction l with
  | nil =>
    intro a c h
    left
    have := (by simpa [rlGo] using h : (2 : Nat) = c)
    omega
  | cons b l ih =>
    intro a c h
    by_cases hba : b = a
    · subst hba
      right
      simp [hasAdjacentEqual_cons2]
    · rw [show rlGo a c (b :: l) = c :: rlGo b 1 l from by simp [rlGo, hba]] at h
      simp only [List.contains_cons, Bool.or_eq_true] at h
      rcases h with h2 | hrest
      · left
        have : (2 : Nat) = c := by simpa using h2
        omega
      · rcases ih b 1 hrest with h1 | hadj
        · omega
        · right
          simp [hasAdjacentEqual_cons2, hadj]

/-- C10: for every integer input, if `is_valid_part_two` accepts then
`is_valid_part_one` accepts: a run of exactly two equal adjacent digits
supplies the adjacent-equal pair part one requires, and both functions apply
the identical non-decreasing check. -/
theorem C10_part_two_implies_part_one :
    ∀ password : Int, is_valid_part_two password = true → is_valid_part_one password = true := by
  intro n h2
  by_cases hn : 0 < n
  · rw [is_valid_part_two_char n hn] at h2
    rw [is_valid_part_one_char n hn]
    have hd : Nat.digits 10 n.toNat = n.toNat % 10 :: Nat.digits 10 (n.toNat / 10) :=
      Nat.digits_def' (by norm_num) (by omega)
    rw [hd] at h2 ⊢
    simp only [Bool.and_eq_true, decide_eq_true_eq] at h2 ⊢
    obtain ⟨hchain, hcontains⟩ := h2
    refine ⟨hchain, ?_⟩
    rw [runLengths_cons] at hcontains
    rcases rl_two_adj _ _ _ hcontains with h1 | hadj
    · omega
    · exact hadj
  · unfold is_valid_part_two at h2
    rw [if_neg hn] at h2
    cases h2

/-- C10 witness: 112222 passes part two, hence part one. -/
theorem C10_witness : is_valid_part_one 112222 = true :=
  C10_part_two_implies_part_one 112222 (by decide)

/-- Every number in the day_4 range has exactly six decimal digits. -/
theorem digits_six (n : Nat) (h1 : 100000 ≤ n) (h2 : n < 1000000) :
    Nat.digits 10 n =
      [n % 10, n / 10 % 10, n / 100 % 10, n / 1000 % 10, n / 10000 % 10, n / 100000] := by
  rw [Nat.digits_def' (by norm_num : (1:Nat) < 10) (show 0 < n by omega),
    Nat.digits_def' (by norm_num : (1:Nat) < 10) (show 0 < n / 10 by omega),
    Nat.digits_def' (by norm_num : (1:Nat) < 10) (show 0 < n / 10 / 10 by omega),
    Nat.digits_def' (by norm_num : (1:Nat) < 10) (show 0 < n / 10 / 10 / 10 by omega),
    Nat.digits_def' (by norm_num : (1:Nat) < 10) (show 0 < n / 10 / 10 / 10 / 10 by omega),
    Nat.digits_of_lt 10 (n / 10 / 10 / 10 / 10 / 10) (by omega) (by omega)]
  simp [Nat.div_div_eq_div_mul]

/-- Explicit form of "some maximal run has length exactly 2" for a six-entry
list: one of the five adjacent pairs is equal and its neighbours (where they
exist) differ. -/
theorem runLengths_six_contains_two (d0 d1 d2 d3 d4 d5 : Nat) :
    ((runLengths [d0, d1, d2, d3, d4, d5]).contains 2 = true) ↔
      ((d0 = d1 ∧ ¬ d1 = d2) ∨ (d1 = d2 ∧ ¬ d0 = d1 ∧ ¬ d2 = d3) ∨
        (d2 = d3 ∧ ¬ d1 = d2 ∧ ¬ d3 = d4) ∨ (d3 = d4 ∧ ¬ d2 = d3 ∧ ¬ d4 = d5) ∨
        (d4 = d5 ∧ ¬ d3 = d4)) := by
  by_cases h1 : d1 = d0 <;> by_cases h2 : d2 = d1 <;> by_cases h3 : d3 = d2 <;>
    by_cases h4 : d4 = d3 <;> by_cases h5 : d5 = d4 <;>
    simp_all [runLengths, rlGo, List.contains_cons] <;> omega

theorem nat_beq_false_prop (x y : Nat) : (Nat.beq x y = false) = (¬ x = y) := by
  apply propext
  constructor
  · intro hf he
    subst he
    rw [Nat.beq_refl] at hf
    cases hf
  · intro hne
    cases h : Nat.beq x y
    · rfl
    · exact absurd (Nat.eq_of_beq_eq_true h) hne

/-- The straight-line part-one formula on six symbolic digits agrees with the
chain-and-adjacent-equal characterization. -/
theorem predOneForm (d0 d1 d2 d3 d4 d5 : Nat) :
    ((d1.ble d0 && (d2.ble d1 && (d3.ble d2 && (d4.ble d3 && d5.ble d4)))) &&
      (d1.beq d0 || (d2.beq d1 || (d3.beq d2 || (d4.beq d3 || d5.beq d4))))) =
      (decide (List.Chain' (fun a b => b ≤ a) [d0, d1, d2, d3, d4, d5]) &&
        hasAdjacentEqual [d0, d1, d2, d3, d4, d5]) := by
  rw [Bool.eq_iff_iff]
  simp [List.chain'_cons, hasAdjacentEqual_cons2, hasAdjacentEqual_single, Nat.ble_eq]
  omega

/-- The straight-line part-two formula on six symbolic digits agrees with the
chain-and-exact-double characterization. -/
theorem predTwoForm (d0 d1 d2 d3 d4 d5 : Nat) :
    ((d1.ble d0 && (d2.ble d1 && (d3.ble d2 && (d4.ble d3 && d5.ble d4)))) &&
      ((d0.beq d1 && !d1.beq d2) ||
       ((d1.beq d2 && (!d0.beq d1 && !d2.beq d3)) ||
        ((d2.beq d3 && (!d1.beq d2 && !d3.beq d4)) ||
         ((d3.beq d4 && (!d2.beq d3 && !d4.beq d5)) ||
          (d4.beq d5 && !d3.beq d4)))))) =
      (decide (List.Chain' (fun a b => b ≤ a) [d0, d1, d2, d3, d4, d5]) &&
        (runLengths [d0, d1, d2, d3, d4, d5]).contains 2) := by
  rw [Bool.eq_iff_iff]
  simp only [Bool.and_eq_true, Bool.or_eq_true, Bool.not_eq_true', decide_eq_true_eq,
    Nat.ble_eq, Nat.beq_eq, nat_beq_false_prop, ne_eq, runLengths_six_contains_two,
    List.chain'_cons, List.chain'_singleton, and_true]

/-- On six-digit numbers the straight-line `predFast1` computes exactly
`is_valid_part_one`. -/
theorem predFast1_eq (n : Nat) (h1 : 100000 ≤ n) (h2 : n < 1000000) :
    predFast1 n = is_valid_part_one (Int.ofNat n) := by
  rw [is_valid_part_one_char (Int.ofNat n) (Int.ofNat_pos.mpr (by omega)),
    show (Int.ofNat n).toNat = n from rfl, digits_six n h1 h2]
  exact predOneForm (n % 10) (n / 10 % 10) (n / 100 % 10) (n / 1000 % 10)
    (n / 10000 % 10) (n / 100000)

/-- On six-digit numbers the straight-line `predFast2` computes exactly
`is_valid_part_two`. -/
theorem predFast2_eq (n : Nat) (h1 : 100000 ≤ n) (h2 : n < 1000000) :
    predFast2 n = is_valid_part_two (Int.ofNat n) := by
  rw [is_valid_part_two_char (Int.ofNat n) (Int.ofNat_pos.mpr (by omega)),
    show (Int.ofNat n).toNat = n from rfl, digits_six n h1 h2]
  exact predTwoForm (n % 10) (n / 10 % 10) (n / 100 % 10) (n / 1000 % 10)
    (n / 10000 % 10) (n / 100000)

/-- Summing `elemCount` over a list packs the two filter counts. -/
theorem list_sum_elem (l : List Nat) :
    (l.map elemCount).sum =
      1048576 * (l.filter predFast1).length + (l.filter predFast2).length := by
  induction l with
  | nil => simp
  | cons a l ih =>
    cases h1 : predFast1 a <;> cases h2 : predFast2 a <;>
      simp [h1, h2, ih, elemCount, List.filter_cons] <;> omega

theorem leafRun_eq (lo : Nat) :
    leafRun lo = ((List.range' lo 16).map elemCount).sum := by
  rw [show List.range' lo 16 =
    [lo, lo + 1, lo + 2, lo + 3, lo + 4, lo + 5, lo + 6, lo + 7, lo + 8, lo + 9,
      lo + 10, lo + 11, lo + 12, lo + 13, lo + 14, lo + 15] from rfl]
  simp [leafRun]
  omega

theorem tailPair_eq (lo : Nat) :
    tailPair lo = ((List.range' lo 2).map elemCount).sum := by
  rw [show List.range' lo 2 = [lo, lo + 1] from rfl]
  simp [tailPair]

theorem cntPow_eq : ∀ (k lo : Nat),
    cntPow k lo = ((List.range' lo (16 * 2 ^ k)).map elemCount).sum := by
  intro k
  induction k with
  | zero =>
    intro lo
    rw [show (16 * 2 ^ 0 : Nat) = 16 from rfl]
    exact leafRun_eq lo
  | succ k ih =>
    intro lo
    rw [show (16 * 2 ^ (k + 1) : Nat) = 16 * 2 ^ k + 16 * 2 ^ k from by ring,
      ← List.range'_append_1, List.map_append, List.sum_append]
    show cntPow (k + 1) lo = _
    rw [show cntPow (k + 1) lo = cntPow k lo + cntPow k (lo + 16 * 2 ^ k) from rfl,
      ih lo, ih (lo + 16 * 2 ^ k)]

theorem sumRange_split (s m n : Nat) :
    ((List.range' s (n + m)).map elemCount).sum =
      ((List.range' s m).map elemCount).sum +
        ((List.range' (s + m) n).map elemCount).sum := by
  rw [← List.range'_append_1, List.map_append, List.sum_append]

/-- The power-of-two chunk sums cover the whole day_4 range
(535794 = 32 * 16384 + 8192 + 2048 + 1024 + 128 + 64 + 32 + 16 + 2). -/
theorem chunksSum_eq :
      cntPow 10 138241 + cntPow 10 154625 + cntPow 10 171009 + cntPow 10 187393 +
      cntPow 10 203777 + cntPow 10 220161 + cntPow 10 236545 + cntPow 10 252929 +
      cntPow 10 269313 + cntPow 10 285697 + cntPow 10 302081 + cntPow 10 318465 +
      cntPow 10 334849 + cntPow 10 351233 + cntPow 10 367617 + cntPow 10 384001 +
      cntPow 10 400385 + cntPow 10 416769 + cntPow 10 433153 + cntPow 10 449537 +
      cntPow 10 465921 + cntPow 10 482305 + cntPow 10 498689 + cntPow 10 515073 +
      cntPow 10 531457 + cntPow 10 547841 + cntPow 10 564225 + cntPow 10 580609 +
      cntPow 10 596993 + cntPow 10 613377 + cntPow 10 629761 + cntPow 10 646145 +
      cntPow 9 662529 + cntPow 7 670721 + cntPow 6 672769 + cntPow 3 673793 +
      cntPow 2 673921 + cntPow 1 673985 + cntPow 0 674017 + tailPair 674033 =
      ((List.range' 138241 535794).map elemCount).sum := by
  have s0 : ((List.range' 138241 535794).map elemCount).sum =
      ((List.range' 138241 16384).map elemCount).sum +
        ((List.range' 154625 519410).map elemCount).sum := by
    have h := sumRange_split 138241 16384 519410
    norm_num at h
    exact h
  have s1 : ((List.range' 154625 519410).map elemCount).sum =
      ((List.range' 154625 16384).map elemCount).sum +
        ((List.range' 171009 503026).map elemCount).sum := by
    have h := sumRange_split 154625 16384 503026
    norm_num at h
    exact h
  have s2 : ((List.range' 171009 503026).map elemCount).sum =
      ((List.range' 171009 16384).map elemCount).sum +
        ((List.range' 187393 486642).map elemCount).sum := by
    have h := sumRange_split 171009 16384 486642
    norm_num at h
    exact h
  have s3 : ((List.range' 187393 486642).map elemCount).sum =
      ((List.range' 187393 16384).map elemCount).sum +
        ((List.range' 203777 470258).map elemCount).sum := by
    have h := sumRange_split 187393 16384 470258
    norm_num at h
    exact h
  have s4 : ((List.range' 203777 470258).map elemCount).sum =
      ((List.range' 203777 16384).map elemCount).sum +
        ((List.range' 220161 453874).map elemCount).sum := by
    have h := sumRange_split 203777 16384 453874
    norm_num at h
    exact h
  have s5 : ((List.range' 220161 453874).map elemCount).sum =
      ((List.range' 220161 16384).map elemCount).sum +
        ((List.range' 236545 437490).map elemCount).sum := by
    have h := sumRange_split 220161 16384 437490
    norm_num at h
    exact h
  have s6 : ((List.range' 236545 437490).map elemCount).sum =
      ((List.range' 236545 16384).map elemCount).sum +
        ((List.range' 252929 421106).map elemCount).sum := by
    have h := sumRange_split 236545 16384 421106
    norm_num at h
    exact h
  have s7 : ((List.range' 252929 421106).map elemCount).sum =
      ((List.range' 252929 16384).map elemCount).sum +
        ((List.range' 269313 404722).map elemCount).sum := by
    have h := sumRange_split 252929 16384 404722
    norm_num at h
    exact h
  have s8 : ((List.range' 269313 404722).map elemCount).sum =
      ((List.range' 269313 16384).map elemCount).sum +
        ((List.range' 285697 388338).map elemCount).sum := by
    have h := sumRange_split 269313 16384 388338
    norm_num at h
    exact h
  have s9 : ((List.range' 285697 388338).map elemCount).sum =
      ((List.range' 285697 16384).map elemCount).sum +
        ((List.range' 302081 371954).map elemCount).sum := by
    have h := sumRange_split 285697 16384 371954
    norm_num at h
    exact h
  have s10 : ((List.range' 302081 371954).map elemCount).sum =
      ((List.range' 302081 16384).map elemCount).sum +
        ((List.range' 318465 355570).map elemCount).sum := by
    have h := sumRange_split 302081 16384 355570
    norm_num at h
    exact h
  have s11 : ((List.range' 318465 355570).map elemCount).sum =
      ((List.range' 318465 16384).map elemCount).sum +
        ((List.range' 334849 339186).map elemCount).sum := by
    have h := sumRange_split 318465 16384 339186
    norm_num at h
    exact h
  have s12 : ((List.range' 334849 339186).map elemCount).sum =
      ((List.range' 334849 16384).map elemCount).sum +
        ((List.range' 351233 322802).map elemCount).sum := by
    have h := sumRange_split 334849 16384 322802
    norm_num at h
    exact h
  have s13 : ((List.range' 351233 322802).map elemCount).sum =
      ((List.range' 351233 16384).map elemCount).sum +
        ((List.range' 367617 306418).map elemCount).sum := by
    have h := sumRange_split 351233 16384 306418
    norm_num at h
    exact h
  have s14 : ((List.range' 367617 306418).map elemCount).sum =
      ((List.range' 367617 16384).map elemCount).sum +
        ((List.range' 384001 290034).map elemCount).sum := by
    have h := sumRange_split 367617 16384 290034
    norm_num at h
    exact h
  have s15 : ((List.range' 384001 290034).map elemCount).sum =
      ((List.range' 384001 16384).map elemCount).sum +
        ((List.range' 400385 273650).map elemCount).sum := by
    have h := sumRange_split 384001 16384 273650
    norm_num at h
    exact h
  have s16 : ((List.range' 400385 273650).map elemCount).sum =
      ((List.range' 400385 16384).map elemCount).sum +
        ((List.range' 416769 257266).map elemCount).sum := by
    have h := sumRange_split 400385 16384 257266
    norm_num at h
    exact h
  have s17 : ((List.range' 416769 257266).map elemCount).sum =
      ((List.range' 416769 16384).map elemCount).sum +
        ((List.range' 433153 240882).map elemCount).sum := by
    have h := sumRange_split 416769 16384 240882
    norm_num at h
    exact h
  have s18 : ((List.range' 433153 240882).map elemCount).sum =
      ((List.range' 433153 16384).map elemCount).sum +
        ((List.range' 449537 224498).map elemCount).sum := by
    have h := sumRange_split 433153 16384 224498
    norm_num at h
    exact h
  have s19 : ((List.range' 449537 224498).map elemCount).sum =
      ((List.range' 449537 16384).map elemCount).sum +
        ((List.range' 465921 208114).map elemCount).sum := by
    have h := sumRange_split 449537 16384 208114
    norm_num at h
    exact h
  have s20 : ((List.range' 465921 208114).map elemCount).sum =
      ((List.range' 465921 16384).map elemCount).sum +
        ((List.range' 482305 191730).map elemCount).sum := by
    have h := sumRange_split 465921 16384 191730
    norm_num at h
    exact h
  have s21 : ((List.range' 482305 191730).map elemCount).sum =
      ((List.range' 482305 16384).map elemCount).sum +
        ((List.range' 498689 175346).map elemCount).sum := by
    have h := sumRange_split 482305 16384 175346
    norm_num at h
    exact h
  have s22 : ((List.range' 498689 175346).map elemCount).sum =
      ((List.range' 498689 16384).map elemCount).sum +
        ((List.range' 515073 158962).map elemCount).sum := by
    have h := sumRange_split 498689 16384 158962
    norm_num at h
    exact h
  have s23 : ((List.range' 515073 158962).map elemCount).sum =
      ((List.range' 515073 16384).map elemCount).sum +
        ((List.range' 531457 142578).map elemCount).sum := by
    have h := sumRange_split 515073 16384 142578
    norm_num at h
    exact h
  have s24 : ((List.range' 531457 142578).map elemCount).sum =
      ((List.range' 531457 16384).map elemCount).sum +
        ((List.range' 547841 126194).map elemCount).sum := by
    have h := sumRange_split 531457 16384 126194
    norm_num at h
    exact h
  have s25 : ((List.range' 547841 126194).map elemCount).sum =
      ((List.range' 547841 16384).map elemCount).sum +
        ((List.range' 564225 109810).map elemCount).sum := by
    have h := sumRange_split 547841 16384 109810
    norm_num at h
    exact h
  have s26 : ((List.range' 564225 109810).map elemCount).sum =
      ((List.range' 564225 16384).map elemCount).sum +
        ((List.range' 580609 93426).map elemCount).sum := by
    have h := sumRange_split 564225 16384 93426
    norm_num at h
    exact h
  have s27 : ((List.range' 580609 93426).map elemCount).sum =
      ((List.range' 580609 16384).map elemCount).sum +
        ((List.range' 596993 77042).map elemCount).sum := by
    have h := sumRange_split 580609 16384 77042
    norm_num at h
    exact h
  have s28 : ((List.range' 596993 77042).map elemCount).sum =
      ((List.range' 596993 16384).map elemCount).sum +
        ((List.range' 613377 60658).map elemCount).sum := by
    have h := sumRange_split 596993 16384 60658
    norm_num at h
    exact h
  have s29 : ((List.range' 613377 60658).map elemCount).sum =
      ((List.range' 613377 16384).map elemCount).sum +
        ((List.range' 629761 44274).map elemCount).sum := by
    have h := sumRange_split 613377 16384 44274
    norm_num at h
    exact h
  have s30 : ((List.range' 629761 44274).map elemCount).sum =
      ((List.range' 629761 16384).map elemCount).sum +
        ((List.range' 646145 27890).map elemCount).sum := by
    have h := sumRange_split 629761 16384 27890
    norm_num at h
    exact h
  have s31 : ((List.range' 646145 27890).map elemCount).sum =
      ((List.range' 646145 16384).map elemCount).sum +
        ((List.range' 662529 11506).map elemCount).sum := by
    have h := sumRange_split 646145 16384 11506
    norm_num at h
    exact h
  have s32 : ((List.range' 662529 11506).map elemCount).sum =
      ((List.range' 662529 8192).map elemCount).sum +
        ((List.range' 670721 3314).map elemCount).sum := by
    have h := sumRange_split 662529 8192 3314
    norm_num at h
    exact h
  have s33 : ((List.range' 670721 3314).map elemCount).sum =
      ((List.range' 670721 2048).map elemCount).sum +
        ((List.range' 672769 1266).map elemCount).sum := by
    have h := sumRange_split 670721 2048 1266
    norm_num at h
    exact h
  have s34 : ((List.range' 672769 1266).map elemCount).sum =
      ((List.range' 672769 1024).map elemCount).sum +
        ((List.range' 673793 242).map elemCount).sum := by
    have h := sumRange_split 672769 1024 242
    norm_num at h
    exact h
  have s35 : ((List.range' 673793 242).map elemCount).sum =
      ((List.range' 673793 128).map elemCount).sum +
        ((List.range' 673921 114).map elemCount).sum := by
    have h := sumRange_split 673793 128 114
    norm_num at h
    exact h
  have s36 : ((List.range' 673921 114).map elemCount).sum =
      ((List.range' 673921 64).map elemCount).sum +
        ((List.range' 673985 50).map elemCount).sum := by
    have h := sumRange_split 673921 64 50
    norm_num at h
    exact h
  have s37 : ((List.range' 673985 50).map elemCount).sum =
      ((List.range' 673985 32).map elemCount).sum +
        ((List.range' 674017 18).map elemCount).sum := by
    have h := sumRange_split 673985 32 18
    norm_num at h
    exact h
  have s38 : ((List.range' 674017 18).map elemCount).sum =
      ((List.range' 674017 16).map elemCount).sum +
        ((List.range' 674033 2).map elemCount).sum := by
    have h := sumRange_split 674017 16 2
    norm_num at h
    exact h
  rw [s0, s1, s2, s3, s4, s5, s6, s7, s8, s9, s10, s11, s12, s13, s14, s15, s16, s17, s18, s19, s20, s21, s22, s23, s24, s25, s26, s27, s28, s29, s30, s31, s32, s33, s34, s35, s36, s37, s38,
    cntPow_eq 10 138241, cntPow_eq 10 154625, cntPow_eq 10 171009, cntPow_eq 10 187393, cntPow_eq 10 203777, cntPow_eq 10 220161, cntPow_eq 10 236545, cntPow_eq 10 252929, cntPow_eq 10 269313, cntPow_eq 10 285697, cntPow_eq 10 302081, cntPow_eq 10 318465, cntPow_eq 10 334849, cntPow_eq 10 351233, cntPow_eq 10 367617, cntPow_eq 10 384001, cntPow_eq 10 400385, cntPow_eq 10 416769, cntPow_eq 10 433153, cntPow_eq 10 449537, cntPow_eq 10 465921, cntPow_eq 10 482305, cntPow_eq 10 498689, cntPow_eq 10 515073, cntPow_eq 10 531457, cntPow_eq 10 547841, cntPow_eq 10 564225, cntPow_eq 10 580609, cntPow_eq 10 596993, cntPow_eq 10 613377, cntPow_eq 10 629761, cntPow_eq 10 646145, cntPow_eq 9 662529, cntPow_eq 7 670721, cntPow_eq 6 672769, cntPow_eq 3 673793, cntPow_eq 2 673921, cntPow_eq 1 673985, cntPow_eq 0 674017, tailPair_eq 674033]
  norm_num
  omega

/-- C3: `is_valid_part_two` performs the same non-decreasing-digit check as
part one (the digit chain, scanned least-significant first, never increases)
and accepts exactly when some maximal run of equal adjacent digits has length
exactly 2 — a run of 3 or more does not count, a separate run of exactly 2
does, and the final (most significant) run is also checked after the loop;
in particular 112233 → true, 123444 → false, 111122 → true, 112222 → true. -/
theorem C3_is_valid_part_two_spec :
    (∀ n : Int, 0 < n →
        is_valid_part_two n =
          (decide (List.Chain' (fun a b => b ≤ a) (Nat.digits 10 n.toNat)) &&
            (runLengths (Nat.digits 10 n.toNat)).contains 2)) ∧
      is_valid_part_two 112233 = true ∧ is_valid_part_two 123444 = false ∧
      is_valid_part_two 111122 = true ∧ is_valid_part_two 112222 = true :=
  ⟨is_valid_part_two_char, by decide, by decide, by decide, by decide⟩

/-- C3 witness: the characterization applied at 112233. -/
theorem C3_witness :
    is_valid_part_two 112233 =
      (decide (List.Chain' (fun a b => b ≤ a) (Nat.digits 10 (112233 : Int).toNat)) &&
        (runLengths (Nat.digits 10 (112233 : Int).toNat)).contains 2) :=
  C3_is_valid_part_two_spec.1 112233 (by decide)

/-- C7: `is_valid_part_one` fails as soon as a more-significant digit is
smaller than the one to its right (the digit chain, scanned least-significant
first, never increases), sets the validity flag when two adjacent digits are
equal, and returns that flag; in particular 111111 → true, 223450 → false,
123789 → false. -/
theorem C7_is_valid_part_one_spec :
    (∀ n : Int, 0 < n →
        is_valid_part_one n =
          (decide (List.Chain' (fun a b => b ≤ a) (Nat.digits 10 n.toNat)) &&
            hasAdjacentEqual (Nat.digits 10 n.toNat))) ∧
      is_valid_part_one 111111 = true ∧ is_valid_part_one 223450 = false ∧
      is_valid_part_one 123789 = false :=
  ⟨is_valid_part_one_char, by decide, by decide, by decide⟩

/-- C7 witness: the characterization applied at 111111. -/
theorem C7_witness :
    is_valid_part_one 111111 =
      (decide (List.Chain' (fun a b => b ≤ a) (Nat.digits 10 (111111 : Int).toNat)) &&
        hasAdjacentEqual (Nat.digits 10 (111111 : Int).toNat)) :=
  C7_is_valid_part_one_spec.1 111111 (by decide)

theorem mem_intersections (w1 w2 : List Vec2d) (p : Vec2d) :
    p ∈ intersections w1 w2 ↔ p ∈ w1 ∧ p ∈ w2 := by
  simp [intersections]

/-- When the wires share a cell, part 1 returns the minimum Manhattan
distance over the shared cells. -/
theorem part1Answer_spec (w1 w2 : List Vec2d) (p0 : Vec2d) (h1 : p0 ∈ w1) (h2 : p0 ∈ w2) :
    ∃ d, part1Answer w1 w2 = some d ∧
      (∀ p, p ∈ w1 → p ∈ w2 → d ≤ p.manhattan_distance) ∧
      (∃ p, p ∈ w1 ∧ p ∈ w2 ∧ p.manhattan_distance = d) := by
  have hp0 : p0 ∈ intersections w1 w2 := (mem_intersections _ _ _).mpr ⟨h1, h2⟩
  obtain ⟨d, hd⟩ : ∃ d, ((intersections w1 w2).map Vec2d.manhattan_distance).min? = some d := by
    cases hL : (intersections w1 w2).map Vec2d.manhattan_distance with
    | nil =>
      rw [List.map_eq_nil_iff] at hL
      rw [hL] at hp0
      cases hp0
    | cons x xs => exact ⟨_, rfl⟩
  have hiff := List.min?_eq_some_iff (fun _ => le_refl _) (fun x y => min_choice x y)
    (fun _ _ _ => le_min_iff) |>.mp hd
  refine ⟨d, hd, ?_, ?_⟩
  · intro p hp1 hp2
    exact hiff.2 _ (List.mem_map_of_mem _ ((mem_intersections _ _ _).mpr ⟨hp1, hp2⟩))
  · obtain ⟨p, hp, hpd⟩ := List.mem_map.mp hiff.1
    exact ⟨p, ((mem_intersections _ _ _).mp hp).1, ((mem_intersections _ _ _).mp hp).2, hpd⟩

/-- When the wires share a cell, part 2 produces a value (the steps map is
non-empty, so its minimum exists). -/
theorem part2Answer_spec (w1 w2 : List Vec2d) (p0 : Vec2d) (h1 : p0 ∈ w1) (h2 : p0 ∈ w2) :
    ∃ s, part2Answer w1 w2 = some s := by
  have hp0 : p0 ∈ intersections w1 w2 := (mem_intersections _ _ _).mpr ⟨h1, h2⟩
  cases hL : (intersections w1 w2).map fun p => (stepsFor w1 p ++ stepsFor w2 p).sum with
  | nil =>
    rw [List.map_eq_nil_iff] at hL
    rw [hL] at hp0
    cases hp0
  | cons x xs =>
    refine ⟨(xs.foldl min x), ?_⟩
    show ((intersections w1 w2).map fun p => (stepsFor w1 p ++ stepsFor w2 p).sum).min? = _
    rw [hL]
    rfl

/-- With no shared cell, the part-1 minimum does not exist: the program
panics there before printing anything. -/
theorem part1Answer_none (w1 w2 : List Vec2d) (h : ∀ p, p ∈ w1 → p ∉ w2) :
    part1Answer w1 w2 = none := by
  have hint : intersections w1 w2 = [] := by
    rw [intersections, List.dedup_eq_nil, List.filter_eq_nil_iff]
    intro a ha
    simp [h a ha]
  show ((intersections w1 w2).map Vec2d.manhattan_distance).min? = none
  rw [hint]
  rfl

/-- C5: when at least one intersection exists, the part-1 answer is the
minimum over all intersection cells of the Manhattan distance from the
origin; for the wires R8,U5,L5,D3 and U7,R6,D4,L4 it is 6. -/
theorem C5_part1_min_manhattan :
    (∀ (w1 w2 : List Vec2d) (p0 : Vec2d), p0 ∈ w1 → p0 ∈ w2 →
        ∃ d, part1Answer w1 w2 = some d ∧
          (∀ p, p ∈ w1 → p ∈ w2 → d ≤ p.manhattan_distance) ∧
          (∃ p, p ∈ w1 ∧ p ∈ w2 ∧ p.manhattan_distance = d)) ∧
      (∃ w1 w2, wirePoints "R8,U5,L5,D3".toList = some w1 ∧
        wirePoints "U7,R6,D4,L4".toList = some w2 ∧ part1Answer w1 w2 = some 6) :=
  ⟨part1Answer_spec, ⟨_, _, rfl, rfl, by decide⟩⟩

/-- C5 witness: the minimum property applied to two one-cell wires. -/
theorem C5_witness :
    ∃ d, part1Answer [(⟨0, 1⟩ : Vec2d)] [⟨0, 1⟩] = some d ∧
      (∀ p, p ∈ [(⟨0, 1⟩ : Vec2d)] → p ∈ [(⟨0, 1⟩ : Vec2d)] → d ≤ p.manhattan_distance) ∧
      (∃ p, p ∈ [(⟨0, 1⟩ : Vec2d)] ∧ p ∈ [(⟨0, 1⟩ : Vec2d)] ∧ p.manhattan_distance = d) :=
  C5_part1_min_manhattan.1 [⟨0, 1⟩] [⟨0, 1⟩] ⟨0, 1⟩ (by decide) (by decide)

/-- C9: with no shared cell the program panics at the part-1 minimum, before
printing anything; with at least one shared cell it prints both results and
terminates normally. -/
theorem C9_no_intersection_panics :
    (∀ w1 w2 : List Vec2d, (∀ p, p ∈ w1 → p ∉ w2) →
        part1Answer w1 w2 = none ∧ day3_run w1 w2 = none) ∧
      (∀ (w1 w2 : List Vec2d) (p0 : Vec2d), p0 ∈ w1 → p0 ∈ w2 →
        ∃ d s, day3_run w1 w2 = some (d, s)) := by
  constructor
  · intro w1 w2 h
    have h1 := part1Answer_none w1 w2 h
    exact ⟨h1, by simp [day3_run, h1]⟩
  · intro w1 w2 p0 h1 h2
    obtain ⟨d, hd, -, -⟩ := part1Answer_spec w1 w2 p0 h1 h2
    obtain ⟨s, hs⟩ := part2Answer_spec w1 w2 p0 h1 h2
    exact ⟨d, s, by simp [day3_run, hd, hs]⟩

/-- C9 witness: both directions at concrete wires. -/
theorem C9_witness :
    (part1Answer [(⟨1, 0⟩ : Vec2d)] [⟨0, 1⟩] = none ∧
        day3_run [(⟨1, 0⟩ : Vec2d)] [⟨0, 1⟩] = none) ∧
      ∃ d s, day3_run [(⟨0, 1⟩ : Vec2d)] [⟨0, 1⟩] = some (d, s) :=
  ⟨C9_no_intersection_panics.1 [⟨1, 0⟩] [⟨0, 1⟩] (by decide),
    C9_no_intersection_panics.2 [⟨0, 1⟩] [⟨0, 1⟩] ⟨0, 1⟩ (by decide) (by decide)⟩

theorem zero_add_vec (d : Vec2d) : (⟨0, 0⟩ : Vec2d) + d = d := by
  cases d with
  | mk x y => show Vec2d.mk (0 + x) (0 + y) = ⟨x, y⟩
              simp

/-- A vertex that makes the inner loop run has a unit direction vector. -/
theorem dirOf_ne_zero (v : Vec2d) (h : lineLength v ≠ 0) : dirOf v ≠ ⟨0, 0⟩ := by
  intro hc
  unfold dirOf at hc
  unfold lineLength at h
  split_ifs at hc <;> simp_all [Vec2d.mk.injEq] <;> omega

/-- The first cell emitted by the rasterizer walk is one unit step away from
the position the walk had reached. -/
theorem get_points_go_head : ∀ (vs : List Vec2d) (pos p : Vec2d),
    (get_points_go pos vs).head? = some p →
    ∃ v, v ∈ vs ∧ lineLength v ≠ 0 ∧ p = pos + dirOf v := by
  intro vs
  induction vs with
  | nil =>
    intro pos p h
    cases h
  | cons v vs ih =>
    intro pos p h
    cases hn : lineLength v with
    | zero =>
      rw [show get_points_go pos (v :: vs) = get_points_go pos vs from by
        simp [get_points_go, hn, stepPoints]] at h
      obtain ⟨v', hv', hl, hp⟩ := ih pos p h
      exact ⟨v', List.mem_cons_of_mem _ hv', hl, hp⟩
    | succ n =>
      rw [show get_points_go pos (v :: vs) =
          (pos + dirOf v) ::
            ((stepPoints (pos + dirOf v) (dirOf v) n).1 ++
              get_points_go (stepPoints (pos + dirOf v) (dirOf v) n).2 vs) from by
        simp [get_points_go, hn, stepPoints]] at h
      rw [List.head?_cons] at h
      refine ⟨v, List.mem_cons_self _ _, by omega, ?_⟩
      cases h
      rfl

/-- C2 counterexample: the wire path R1,L1 parses, and its rasterized point
sequence contains the origin (the wire returns to it), refuting the claim
that the origin is never a member. -/
theorem C2_origin_counterexample :
    ∃ w, parse "R1,L1".toList = some w ∧ (⟨0, 0⟩ : Vec2d) ∈ get_points w :=
  ⟨_, rfl, by decide⟩

/-- C2 amended: the rasterized sequence never BEGINS at the origin — every
emitted cell lies one unit step beyond the walk position, so the first
emitted cell of `get_points` is never (0,0); the origin can only reappear
later, if the path returns to it. -/
theorem C2_amended_head_not_origin :
    ∀ (vertices : List Vec2d) (p : Vec2d),
      (get_points vertices).head? = some p → p ≠ ⟨0, 0⟩ := by
  intro vs p h hc
  obtain ⟨v, hv, hl, hp⟩ := get_points_go_head vs ⟨0, 0⟩ p h
  rw [zero_add_vec] at hp
  exact dirOf_ne_zero v hl (by rw [← hp, hc])

/-- C2 witness: the amended statement applied to the single-segment wire R1. -/
theorem C2_witness : (⟨1, 0⟩ : Vec2d) ≠ ⟨0, 0⟩ :=
  C2_amended_head_not_origin [⟨1, 0⟩] ⟨1, 0⟩ (by decide)

/-- C6: parsing maps each token to its displacement (U up, D down, L left,
R right, with the parsed magnitude), rasterizing walks one unit cell at a
time appending every cell in visitation order, and R8,U5,L5,D3 rasterizes to
exactly the 21 cells from (1,0) to (3,2). -/
theorem C6_parse_and_rasterize :
    (∀ ds : List Char, ds ≠ [] → ds.all Char.isDigit = true →
        digitVal ds ≤ 2147483647 →
        Vec2d.from_str ('U' :: ds) = some ⟨0, Int.ofNat (digitVal ds)⟩ ∧
        Vec2d.from_str ('D' :: ds) = some ⟨0, -Int.ofNat (digitVal ds)⟩ ∧
        Vec2d.from_str ('L' :: ds) = some ⟨-Int.ofNat (digitVal ds), 0⟩ ∧
        Vec2d.from_str ('R' :: ds) = some ⟨Int.ofNat (digitVal ds), 0⟩) ∧
      (∀ (pos direction : Vec2d) (n : Nat),
        (stepPoints pos direction (n + 1)).1 =
          (pos + direction) :: (stepPoints (pos + direction) direction n).1) ∧
      (∃ w, parse "R8,U5,L5,D3".toList = some w ∧
        w = [⟨8, 0⟩, ⟨0, 5⟩, ⟨-5, 0⟩, ⟨0, -3⟩] ∧
        get_points w =
          [⟨1, 0⟩, ⟨2, 0⟩, ⟨3, 0⟩, ⟨4, 0⟩, ⟨5, 0⟩, ⟨6, 0⟩, ⟨7, 0⟩, ⟨8, 0⟩,
            ⟨8, 1⟩, ⟨8, 2⟩, ⟨8, 3⟩, ⟨8, 4⟩, ⟨8, 5⟩,
            ⟨7, 5⟩, ⟨6, 5⟩, ⟨5, 5⟩, ⟨4, 5⟩, ⟨3, 5⟩,
            ⟨3, 4⟩, ⟨3, 3⟩, ⟨3, 2⟩] ∧
        (get_points w).length = 21 ∧ (get_points w).head? = some ⟨1, 0⟩ ∧
        (get_points w).getLast? = some ⟨3, 2⟩) := by
  refine ⟨?_, fun pos direction n => rfl, ⟨_, rfl, by decide, by decide, by decide,
    by decide, by decide⟩⟩
  intro ds h1 h2 h3
  have hne : ds.isEmpty = false := by
    cases ds
    · exact absurd rfl h1
    · rfl
  refine ⟨?_, ?_, ?_, ?_⟩ <;>
    simp [Vec2d.from_str, intFromDigits, hne, h2, h3]

/-- C6 witness: the token mapping applied to the digit string "5". -/
theorem C6_witness :
    Vec2d.from_str ('U' :: ['5']) = some ⟨0, Int.ofNat (digitVal ['5'])⟩ ∧
      Vec2d.from_str ('D' :: ['5']) = some ⟨0, -Int.ofNat (digitVal ['5'])⟩ ∧
      Vec2d.from_str ('L' :: ['5']) = some ⟨-Int.ofNat (digitVal ['5']), 0⟩ ∧
      Vec2d.from_str ('R' :: ['5']) = some ⟨Int.ofNat (digitVal ['5']), 0⟩ :=
  C6_parse_and_rasterize.1 ['5'] (by decide) (by decide) (by decide)

/-- C8: any token that does not match the pattern (one of U/D/L/R followed by
one or more digits) makes `Vec2d::from` panic: the model returns `none`, no
value reaches the caller. -/
theorem C8_bad_token_panics :
    ∀ s : List Char, tokenMatches s = false → Vec2d.from_str s = none := by
  intro s h
  cases s with
  | nil => rfl
  | cons d rest =>
    by_cases hemp : rest.isEmpty = true
    · simp [Vec2d.from_str, hemp]
    · have hemp' : rest.isEmpty = false := by revert hemp; cases rest.isEmpty <;> simp
      by_cases hall : rest.all Char.isDigit = true
      · have hd : (decide (d = 'U') || decide (d = 'D') || decide (d = 'L') ||
            decide (d = 'R')) = false := by
          simpa [tokenMatches, hemp', hall] using h
        simp only [Bool.or_eq_false_iff, decide_eq_false_iff_not] at hd
        obtain ⟨⟨⟨hU, hD⟩, hL⟩, hR⟩ := hd
        simp [Vec2d.from_str, hemp', hall, hU, hD, hL, hR]
      · have hall' : rest.all Char.isDigit = false := by
          revert hall; cases rest.all Char.isDigit <;> simp
        simp [Vec2d.from_str, hall']

/-- C8 witness: the token "X5" does not match and parses to none. -/
theorem C8_witness : Vec2d.from_str ['X', '5'] = none :=
  C8_bad_token_panics ['X', '5'] (by decide)

/-- C1: the part-2 reduction of `main` does NOT use only the first visit's
step count: `steps.get_mut(...).push(step)` records EVERY visit, and the
values are summed.  For the wires R2,U1,L1,D1 and U1,R1,D1 (the first wire
revisits the intersection cell (1,0) at steps 1 and 5) the code prints 6,
while the first-visit rule of the specification gives 4.  On the spec's own
example R8,U5,L5,D3 / U7,R6,D4,L4 no wire revisits an intersection cell, so
both rules agree on 30. -/
theorem C1_part2_sums_all_visits :
    ∃ w1 w2, wirePoints "R2,U1,L1,D1".toList = some w1 ∧
      wirePoints "U1,R1,D1".toList = some w2 ∧
      part2Answer w1 w2 = some 6 ∧ part2FirstVisit w1 w2 = some 4 ∧
      (∃ e1 e2, wirePoints "R8,U5,L5,D3".toList = some e1 ∧
        wirePoints "U7,R6,D4,L4".toList = some e2 ∧
        part2Answer e1 e2 = some 30 ∧ part2FirstVisit e1 e2 = some 30) :=
  ⟨_, _, rfl, rfl, by decide, by decide,
    _, _, rfl, rfl, by decide, by decide⟩
theorem chunkVal_0 : cntPow 10 138241 = 132120657 := by decide!

theorem chunkVal_1 : cntPow 10 154625 = 109051965 := by decide!

theorem chunkVal_2 : cntPow 10 171009 = 15728647 := by decide!

theorem chunkVal_3 : cntPow 10 187393 = 6291458 := by decide!

theorem chunkVal_4 : cntPow 10 203777 = 0 := by decide!

theorem chunkVal_5 : cntPow 10 220161 = 514851194 := by decide!

theorem chunkVal_6 : cntPow 10 236545 = 162529378 := by decide!

theorem chunkVal_7 : cntPow 10 252929 = 108003389 := by decide!

theorem chunkVal_8 : cntPow 10 269313 = 16777223 := by decide!

theorem chunkVal_9 : cntPow 10 285697 = 6291458 := by decide!

theorem chunkVal_10 : cntPow 10 302081 = 0 := by decide!

theorem chunkVal_11 : cntPow 10 318465 = 142606424 := by decide!

theorem chunkVal_12 : cntPow 10 334849 = 204472474 := by decide!

theorem chunkVal_13 : cntPow 10 351233 = 93323319 := by decide!

theorem chunkVal_14 : cntPow 10 367617 = 31457293 := by decide!

theorem chunkVal_15 : cntPow 10 384001 = 6291458 := by decide!

theorem chunkVal_16 : cntPow 10 400385 = 0 := by decide!

theorem chunkVal_17 : cntPow 10 416769 = 0 := by decide!

theorem chunkVal_18 : cntPow 10 433153 = 131072094 := by decide!

theorem chunkVal_19 : cntPow 10 449537 = 73400363 := by decide!

theorem chunkVal_20 : cntPow 10 465921 = 52428826 := by decide!

theorem chunkVal_21 : cntPow 10 482305 = 5242882 := by decide!

theorem chunkVal_22 : cntPow 10 498689 = 1048576 := by decide!

theorem chunkVal_23 : cntPow 10 515073 = 0 := by decide!

theorem chunkVal_24 : cntPow 10 531457 = 0 := by decide!

theorem chunkVal_25 : cntPow 10 547841 = 73400371 := by decide!

theorem chunkVal_26 : cntPow 10 564225 = 52428826 := by decide!

theorem chunkVal_27 : cntPow 10 580609 = 5242882 := by decide!

theorem chunkVal_28 : cntPow 10 596993 = 1048576 := by decide!

theorem chunkVal_29 : cntPow 10 613377 = 0 := by decide!

theorem chunkVal_30 : cntPow 10 629761 = 0 := by decide!

theorem chunkVal_31 : cntPow 10 646145 = 0 := by decide!

theorem chunkVal_32 : cntPow 9 662529 = 36700184 := by decide!

theorem chunkVal_33 : cntPow 7 670721 = 0 := by decide!

theorem chunkVal_34 : cntPow 6 672769 = 0 := by decide!

theorem chunkVal_35 : cntPow 3 673793 = 0 := by decide!

theorem chunkVal_36 : cntPow 2 673921 = 0 := by decide!

theorem chunkVal_37 : cntPow 1 673985 = 0 := by decide!

theorem chunkVal_38 : cntPow 0 674017 = 0 := by decide!

theorem chunkVal_39 : tailPair 674033 = 0 := by decide!

/-- The packed count over the whole range. -/
theorem day4_total :
    ((List.range' 138241 535794).map elemCount).sum = 1981809917 := by
  rw [← chunksSum_eq]
  simp only [chunkVal_0, chunkVal_1, chunkVal_2, chunkVal_3, chunkVal_4, chunkVal_5, chunkVal_6, chunkVal_7, chunkVal_8, chunkVal_9, chunkVal_10, chunkVal_11, chunkVal_12, chunkVal_13, chunkVal_14, chunkVal_15, chunkVal_16, chunkVal_17, chunkVal_18, chunkVal_19, chunkVal_20, chunkVal_21, chunkVal_22, chunkVal_23, chunkVal_24, chunkVal_25, chunkVal_26, chunkVal_27, chunkVal_28, chunkVal_29, chunkVal_30, chunkVal_31, chunkVal_32, chunkVal_33, chunkVal_34, chunkVal_35, chunkVal_36, chunkVal_37, chunkVal_38, chunkVal_39]

/-- C4: counting the integers in 138241..=674034 that satisfy
`is_valid_part_one` yields 1890, and those satisfying `is_valid_part_two`
yield 1277: the two counts the fixed-range program prints. -/
theorem C4_day4_counts : day4_main = (1890, 1277) := by
  have hsum : ((List.range' 138241 535794).map elemCount).sum = 1981809917 := day4_total
  have hsplit := list_sum_elem (List.range' 138241 535794)
  have hlen : ((List.range' 138241 535794).filter predFast2).length ≤ 535794 := by
    calc ((List.range' 138241 535794).filter predFast2).length
        ≤ (List.range' 138241 535794).length := List.length_filter_le _ _
      _ = 535794 := by simp
  have h1 : ((List.range' 138241 535794).filter predFast1).length = 1890 := by omega
  have h2 : ((List.range' 138241 535794).filter predFast2).length = 1277 := by omega
  have t1 : (List.range' 138241 535794).filter (fun p => is_valid_part_one (Int.ofNat p)) =
      (List.range' 138241 535794).filter predFast1 := by
    refine (List.filter_congr ?_).symm
    intro a ha
    rw [List.mem_range'] at ha
    obtain ⟨i, hi, rfl⟩ := ha
    exact predFast1_eq _ (by omega) (by omega)
  have t2 : (List.range' 138241 535794).filter (fun p => is_valid_part_two (Int.ofNat p)) =
      (List.range' 138241 535794).filter predFast2 := by
    refine (List.filter_congr ?_).symm
    intro a ha
    rw [List.mem_range'] at ha
    obtain ⟨i, hi, rfl⟩ := ha
    exact predFast2_eq _ (by omega) (by omega)
  show (((List.range' 138241 (674034 + 1 - 138241)).filter
      fun p => is_valid_part_one (Int.ofNat p)).length,
    ((List.range' 138241 (674034 + 1 - 138241)).filter
      fun p => is_valid_part_two (Int.ofNat p)).length) = (1890, 1277)
  rw [show (674034 + 1 - 138241 : Nat) = 535794 from rfl, t1, t2, h1, h2]
